import Mathlib

/-!
Verification of the Interview Intelligence Platform.

The repository ships `src/server.js` (the Express transport layer); the
Response Analysis & Scoring Engine itself (evidence extractor, dimension
scorer, response analyzer, session aggregator, mounted under
`./routes/interviewRoutes`) is not present in the source tree, so those
components are modelled from the specification.  The transport layer
(health endpoint, 404 handler, global error handler) is embedded directly
from `src/server.js`.
-/

/-- Closed enumeration of question types (spec section 3). -/
inductive QuestionType where
  | behavioral
  | technical
  | situational
deriving DecidableEq

/-- Modelled from the spec: an evidence span — start/end character offsets
into the response text, a tag and a short rationale (spec section 3).
`stop` stands for the field called end in the spec, a Lean keyword. -/
structure EvidenceSpan where
  start : Nat
  stop : Nat
  tag : String
  rationale : String
deriving DecidableEq

/-- Does `pat` occur verbatim at the head of `text`? -/
def matchesAt : List Char → List Char → Bool
  | [], _ => true
  | _ :: _, [] => false
  | p :: ps, t :: ts => p == t && matchesAt ps ts

/-- All start indices at which `pat` occurs in `text`.  Only indices `i`
with `i + pat.length ≤ text.length` are candidates. -/
def findAll (pat text : List Char) : List Nat :=
  (List.range (text.length + 1 - pat.length)).filter
    (fun i => matchesAt pat (text.drop i))

/-- Modelled from the spec: one lexical pattern detector of the Evidence
Extractor (spec section 4.1) — every occurrence of the fixed pattern
becomes a span carrying the detector tag. -/
def spansOfPattern (tag why pat : String) (text : List Char) : List EvidenceSpan :=
  (findAll pat.data text).map (fun i => ⟨i, i + pat.data.length, tag, why⟩)

/-- Modelled from the spec: the numeric-mention detector (spec section 4.1)
— each digit character yields a one-character `quantified-claim` span. -/
def numericSpans (text : List Char) : List EvidenceSpan :=
  ((List.range text.length).filter
      (fun i => (text.getD i ' ').isDigit)).map
    (fun i => ⟨i, i + 1, "quantified-claim", "numeric mention"⟩)

/-- Modelled from the spec: structural-marker detection ("firstly / because
/ for example", spec section 2). -/
def structuralSpans (text : List Char) : List EvidenceSpan :=
  spansOfPattern "structural-marker" "discourse connective" "firstly" text ++
  spansOfPattern "structural-marker" "discourse connective" "because" text ++
  spansOfPattern "structural-marker" "discourse connective" "therefore" text

/-- Modelled from the spec: example-citation detection (tag
`example-given`, spec section 3). -/
def exampleSpans (text : List Char) : List EvidenceSpan :=
  spansOfPattern "example-given" "cites an example" "for example" text ++
  spansOfPattern "example-given" "cites an example" "for instance" text

/-- Modelled from the spec: per-question-type lexical cues (spec
section 4.1). -/
def keywordSpans (qt : QuestionType) (text : List Char) : List EvidenceSpan :=
  match qt with
  | .technical =>
      spansOfPattern "keyword-hit" "domain keyword" "algorithm" text ++
      spansOfPattern "keyword-hit" "domain keyword" "performance" text
  | .behavioral =>
      spansOfPattern "keyword-hit" "domain keyword" "team" text ++
      spansOfPattern "keyword-hit" "domain keyword" "learned" text
  | .situational =>
      spansOfPattern "keyword-hit" "domain keyword" "would" text ++
      spansOfPattern "keyword-hit" "domain keyword" "prioritize" text

/-- Modelled from the spec: the Evidence Extractor contract
`extract(responseText, questionType) → ordered sequence of EvidenceSpan`
(spec section 4.1): a fixed, ordered set of pattern detectors — lexical
cues, numeric-mention detection, structural-marker detection. -/
def extract (text : List Char) (qt : QuestionType) : List EvidenceSpan :=
  keywordSpans qt text ++ numericSpans text ++ structuralSpans text ++
    exampleSpans text

theorem findAll_bounds {pat text : List Char} {i : Nat}
    (hi : i ∈ findAll pat text) : i + pat.length ≤ text.length := by
  have h := List.of_mem_filter hi
  have hr : i ∈ List.range (text.length + 1 - pat.length) :=
    List.mem_of_mem_filter hi
  have := List.mem_range.mp hr
  omega

theorem spansOfPattern_inv {tag why pat : String} {text : List Char}
    {s : EvidenceSpan} (hpat : pat.data ≠ [])
    (hs : s ∈ spansOfPattern tag why pat text) :
    s.start < s.stop ∧ s.stop ≤ text.length := by
  rcases List.mem_map.mp hs with ⟨i, hi, rfl⟩
  have hb := findAll_bounds hi
  have hlen : 0 < pat.data.length := List.length_pos.mpr hpat
  exact ⟨Nat.lt_add_of_pos_right hlen, hb⟩

theorem numericSpans_inv {text : List Char} {s : EvidenceSpan}
    (hs : s ∈ numericSpans text) :
    s.start < s.stop ∧ s.stop ≤ text.length := by
  rcases List.mem_map.mp hs with ⟨i, hi, rfl⟩
  have hr : i ∈ List.range text.length := List.mem_of_mem_filter hi
  have := List.mem_range.mp hr
  exact ⟨by simp, by simp; omega⟩

/-- Claim C3: every evidence span produced by extract satisfies
0 ≤ start < end ≤ length(responseText). -/
theorem extract_span_bounds (text : List Char) (qt : QuestionType)
    (s : EvidenceSpan) (hs : s ∈ extract text qt) :
    0 ≤ s.start ∧ s.start < s.stop ∧ s.stop ≤ text.length := by
  refine ⟨Nat.zero_le _, ?_⟩
  cases qt <;>
    simp only [extract, keywordSpans, structuralSpans, exampleSpans,
      List.mem_append] at hs <;>
    casesm* _ ∨ _ <;>
    rename_i h <;>
    first
      | exact spansOfPattern_inv (by decide) h
      | exact numericSpans_inv h

/-- Witness for Claim C3 at a concrete input: the digit in "7 ways" yields
a span respecting the bounds. -/
theorem extract_span_bounds_witness :
    0 ≤ (EvidenceSpan.mk 0 1 "quantified-claim" "numeric mention").start ∧
    (EvidenceSpan.mk 0 1 "quantified-claim" "numeric mention").start <
      (EvidenceSpan.mk 0 1 "quantified-claim" "numeric mention").stop ∧
    (EvidenceSpan.mk 0 1 "quantified-claim" "numeric mention").stop ≤
      "7 ways".data.length :=
  extract_span_bounds "7 ways".data QuestionType.technical _ (by decide)

/-- Claim C4: extract is a deterministic, pure function of its inputs —
identical response text and question type yield identical ordered span
sequences. -/
theorem extract_deterministic (t1 t2 : List Char) (q1 q2 : QuestionType)
    (ht : t1 = t2) (hq : q1 = q2) : extract t1 q1 = extract t2 q2 := by
  subst ht; subst hq; rfl

/-- Witness for Claim C4 at a concrete input. -/
theorem extract_deterministic_witness :
    extract "because of 3 things".data QuestionType.behavioral =
      extract "because of 3 things".data QuestionType.behavioral :=
  extract_deterministic _ _ _ _ rfl rfl

/-- Modelled from the spec: dimension set fixed per question type (spec
section 4.2): technical questions score relevance, depth, structure;
behavioral questions score relevance, structure, self-reflection. -/
def dims : QuestionType → List String
  | .technical => ["relevance", "depth", "structure"]
  | .behavioral => ["relevance", "structure", "self-reflection"]
  | .situational => ["relevance", "clarity", "structure"]

/-- Modelled from the spec: dimension weights for composite scoring, fixed
per question type and summing to 1.0 (spec section 3 invariants). -/
def weights : QuestionType → List (String × ℚ)
  | .technical => [("relevance", 2/5), ("depth", 7/20), ("structure", 1/4)]
  | .behavioral =>
      [("relevance", 2/5), ("structure", 3/10), ("self-reflection", 3/10)]
  | .situational =>
      [("relevance", 2/5), ("clarity", 3/10), ("structure", 3/10)]

/-- Modelled from the spec: each dimension has a declared set of
contributing evidence tags with weights (spec section 4.2). -/
def tagTable : String → List (String × ℚ)
  | "relevance" => [("keyword-hit", 8)]
  | "depth" => [("quantified-claim", 10), ("example-given", 8)]
  | "structure" => [("structural-marker", 10)]
  | "clarity" => [("structural-marker", 6), ("example-given", 4)]
  | "self-reflection" => [("keyword-hit", 5), ("example-given", 5)]
  | _ => []

/-- Modelled from the spec: tag_count_effect saturates (diminishing
returns) rather than growing unbounded (spec section 4.2). -/
def satEffect (n : Nat) : ℚ := min (n : ℚ) 3

/-- Number of spans carrying a given tag. -/
def countTag (tag : String) (ev : List EvidenceSpan) : Nat :=
  (ev.filter (fun s => s.tag == tag)).length

/-- Spans whose tag contributes to the given dimension. -/
def relevantSpans (d : String) (spans : List EvidenceSpan) : List EvidenceSpan :=
  spans.filter (fun s => (tagTable d).any (fun p => p.1 == s.tag))

/-- clamp(x, 0, 100) from the spec score formula (spec section 4.2). -/
def clampScore (x : ℚ) : ℚ := max 0 (min x 100)

/-- Modelled from the spec: Σ(tag_weight × tag_count_effect) over the
declared tag table of a dimension (spec section 4.2). -/
def sumTag (d : String) (ev : List EvidenceSpan) : ℚ :=
  (tagTable d).foldr (fun p acc => p.2 * satEffect (countTag p.1 ev) + acc) 0

/-- Modelled from the spec: the fixed low zero-evidence confidence floor
(spec section 4.2). -/
def confFloor : ℚ := 1/5

/-- Number of distinct evidence tags observed. -/
def distinctTags (ev : List EvidenceSpan) : Nat := (ev.map (fun s => s.tag)).dedup.length

/-- Modelled from the spec: confidence is monotone in distinct evidence
tags and response length, capped at 1.0; zero evidence yields the fixed
floor (spec section 4.2). -/
def dimConf (ev : List EvidenceSpan) (len : Nat) : ℚ :=
  if ev.isEmpty then confFloor
  else min 1 (2/5 + (distinctTags ev : ℚ) / 10 + (min len 300 : ℚ) / 1000)

/-- Modelled from the spec: the per-dimension result record
{score: 0–100, confidence: 0.0–1.0, evidence} (spec section 3). -/
structure DimScore where
  score : ℚ
  confidence : ℚ
  evidence : List EvidenceSpan
deriving DecidableEq

/-- Modelled from the spec: score = clamp(base + Σ(tag_weight ×
tag_count_effect), 0, 100) with neutral base 50 (spec section 4.2). -/
def mkDimScore (d : String) (len : Nat) (spans : List EvidenceSpan) : DimScore :=
  ⟨clampScore (50 + sumTag d (relevantSpans d spans)),
   dimConf (relevantSpans d spans) len,
   relevantSpans d spans⟩

/-- Modelled from the spec: the rule-based Scoring Strategy
`score(questionType, responseMetadata, evidenceSpans) → mapping from
DimensionName to {score, confidence}` (spec section 4.2); every declared
dimension receives an entry. -/
def scoreAll (qt : QuestionType) (len : Nat) (spans : List EvidenceSpan) :
    List (String × DimScore) :=
  (dims qt).map (fun d => (d, mkDimScore d len spans))

/-- Score of a dimension inside a score mapping, neutral 50 if absent. -/
def scoreOf (d : String) (ds : List (String × DimScore)) : ℚ :=
  match ds.lookup d with
  | some s => s.score
  | none => 50

/-- Sum of the composite weights of a question type. -/
def weightSum (qt : QuestionType) : ℚ :=
  (weights qt).foldr (fun p acc => p.2 + acc) 0

/-- Modelled from the spec: overall score is the weighted sum over the
dimension set using the fixed per-question-type weights (spec
section 4.3). -/
def composite (qt : QuestionType) (ds : List (String × DimScore)) : ℚ :=
  (weights qt).foldr (fun p acc => p.2 * scoreOf p.1 ds + acc) 0

/-- Modelled from the spec: justification never throws for missing
evidence — it falls back to a generic statement (spec section 7). -/
def justifyDim (d : String) (s : DimScore) : String :=
  match s.evidence with
  | [] => "No direct evidence for " ++ d ++ "; neutral score applied"
  | sp :: _ => "Scored on " ++ d ++ " citing evidence tagged " ++ sp.tag

/-- Justification text assembled over all dimension entries. -/
def buildJustification (ds : List (String × DimScore)) : String :=
  String.intercalate "; " (ds.map (fun p => justifyDim p.1 p.2))

/-- Modelled from the spec: a ResponseAnalysis — response text,
per-dimension results, overall weighted composite and justification
(spec section 3). -/
structure ResponseAnalysis where
  responseText : String
  dimensions : List (String × DimScore)
  overall : ℚ
  justification : String
deriving DecidableEq

/-- Modelled from the spec: the Response Analyzer composition — extractor,
then scoring strategy, then weighted composite and justification (spec
sections 2 and 4.3). -/
def mkAnalysis (qt : QuestionType) (text : String) : ResponseAnalysis :=
  ⟨text,
   scoreAll qt text.data.length (extract text.data qt),
   composite qt (scoreAll qt text.data.length (extract text.data qt)),
   buildJustification (scoreAll qt text.data.length (extract text.data qt))⟩

theorem lookup_map_self (l : List String) (f : String → DimScore)
    (d : String) (hd : d ∈ l) :
    (l.map (fun x => (x, f x))).lookup d = some (f d) := by
  induction l with
  | nil => cases hd
  | cons a t ih =>
    by_cases h : d = a
    · subst h
      simp [List.lookup]
    · have hdt : d ∈ t := by
        rcases List.mem_cons.mp hd with h1 | h1
        · exact absurd h1 h
        · exact h1
      have hba : (d == a) = false := beq_eq_false_iff_ne.mpr h
      simp only [List.map_cons, List.lookup, hba]
      exact ih hdt

theorem lookup_map_none (l : List String) (f : String → DimScore)
    (d : String) (hd : d ∉ l) :
    (l.map (fun x => (x, f x))).lookup d = none := by
  induction l with
  | nil => rfl
  | cons a t ih =>
    have h1 : d ≠ a := fun h => hd (h ▸ List.mem_cons_self a t)
    have h2 : d ∉ t := fun h => hd (List.mem_cons_of_mem a h)
    have hba : (d == a) = false := beq_eq_false_iff_ne.mpr h1
    simp only [List.map_cons, List.lookup, hba]
    exact ih h2

theorem clampScore_nonneg (x : ℚ) : 0 ≤ clampScore x := le_max_left 0 _

theorem clampScore_le (x : ℚ) : clampScore x ≤ 100 :=
  max_le (by norm_num) (min_le_right _ _)

theorem satEffect_zero : satEffect 0 = 0 := by
  unfold satEffect
  rw [Nat.cast_zero]
  exact min_eq_left (by norm_num)

theorem countTag_nil (tag : String) : countTag tag [] = 0 := rfl

theorem sumTag_nil (d : String) : sumTag d [] = 0 := by
  unfold sumTag
  induction tagTable d with
  | nil => rfl
  | cons a t ih =>
    rw [List.foldr_cons, ih, countTag_nil, satEffect_zero]
    ring

theorem clampScore_fifty : clampScore 50 = 50 := by
  unfold clampScore
  rw [min_eq_left (by norm_num), max_eq_right (by norm_num)]

theorem mkDimScore_zero_evidence (d : String) (len : Nat)
    (spans : List EvidenceSpan) (hz : relevantSpans d spans = []) :
    mkDimScore d len spans = ⟨50, confFloor, []⟩ := by
  unfold mkDimScore
  rw [hz, sumTag_nil, add_zero, clampScore_fifty]
  rfl

theorem scoreAll_range (qt : QuestionType) (len : Nat)
    (spans : List EvidenceSpan) (d : String) :
    0 ≤ scoreOf d (scoreAll qt len spans) ∧
      scoreOf d (scoreAll qt len spans) ≤ 100 := by
  by_cases hd : d ∈ dims qt
  · unfold scoreOf scoreAll
    rw [lookup_map_self _ _ _ hd]
    exact ⟨clampScore_nonneg _, clampScore_le _⟩
  · unfold scoreOf scoreAll
    rw [lookup_map_none _ _ _ hd]
    norm_num

theorem composite_bounds (wl : List (String × ℚ)) (f : String → ℚ)
    (hw : ∀ p ∈ wl, 0 ≤ p.2) (hf : ∀ d, 0 ≤ f d ∧ f d ≤ 100) :
    0 ≤ wl.foldr (fun p acc => p.2 * f p.1 + acc) 0 ∧
      wl.foldr (fun p acc => p.2 * f p.1 + acc) 0 ≤
        100 * wl.foldr (fun p acc => p.2 + acc) 0 := by
  induction wl with
  | nil => norm_num
  | cons a t ih =>
    have hat := hw a (List.mem_cons_self a t)
    have hht : ∀ p ∈ t, 0 ≤ p.2 := fun p hp => hw p (List.mem_cons_of_mem a hp)
    obtain ⟨ih1, ih2⟩ := ih hht
    obtain ⟨hf1, hf2⟩ := hf a.1
    constructor
    · rw [List.foldr_cons]
      have hm : 0 ≤ a.2 * f a.1 := mul_nonneg hat hf1
      linarith
    · rw [List.foldr_cons, List.foldr_cons]
      have hm : a.2 * f a.1 ≤ a.2 * 100 := mul_le_mul_of_nonneg_left hf2 hat
      nlinarith

theorem weightSum_eq_one (qt : QuestionType) : weightSum qt = 1 := by
  cases qt <;> norm_num [weightSum, weights]

theorem weights_nonneg (qt : QuestionType) : ∀ p ∈ weights qt, 0 ≤ p.2 := by
  cases qt <;> intro p hp <;>
    simp only [weights, List.mem_cons, List.not_mem_nil, or_false] at hp <;>
    rcases hp with rfl | rfl | rfl <;> norm_num

/-- Claim C5: every dimension weight table sums to 1.0 (hence within 1e-6
of 1.0); the overall composite score of every produced ResponseAnalysis
lies in [0,100]; and each dimension score equals clamp(base +
Σ(tag_weight × tag_count_effect), 0, 100), hence also lies in [0,100]. -/
theorem weights_and_composite_spec :
    (∀ qt : QuestionType, weightSum qt = 1 ∧ |weightSum qt - 1| ≤ 1 / 1000000) ∧
    (∀ (qt : QuestionType) (text : String),
      0 ≤ (mkAnalysis qt text).overall ∧ (mkAnalysis qt text).overall ≤ 100) ∧
    (∀ (qt : QuestionType) (text : String) (p : String × DimScore),
      p ∈ (mkAnalysis qt text).dimensions →
        p.2.score = clampScore (50 + sumTag p.1 p.2.evidence) ∧
        0 ≤ p.2.score ∧ p.2.score ≤ 100) := by
  refine ⟨?_, ?_, ?_⟩
  · intro qt
    rw [weightSum_eq_one qt]
    norm_num
  · intro qt text
    have hb := composite_bounds (weights qt)
      (fun d => scoreOf d (scoreAll qt text.data.length (extract text.data qt)))
      (weights_nonneg qt)
      (fun d => scoreAll_range qt text.data.length (extract text.data qt) d)
    have hov : (mkAnalysis qt text).overall =
        composite qt (scoreAll qt text.data.length (extract text.data qt)) := rfl
    have hws : (weights qt).foldr (fun p acc => p.2 + acc) 0 = 1 :=
      weightSum_eq_one qt
    rw [hov]
    unfold composite
    rw [hws] at hb
    have h2 := hb.2
    constructor
    · exact hb.1
    · linarith
  · intro qt text p hp
    have hp' : p ∈ scoreAll qt text.data.length (extract text.data qt) := hp
    unfold scoreAll at hp'
    rcases List.mem_map.mp hp' with ⟨d, _, rfl⟩
    exact ⟨rfl, clampScore_nonneg _, clampScore_le _⟩

/-- Witness for Claim C5 at a concrete input: the relevance entry produced
for an empty technical response. -/
theorem weights_and_composite_spec_witness :
    (DimScore.mk 50 confFloor []).score =
      clampScore (50 + sumTag "relevance" (DimScore.mk 50 confFloor []).evidence) ∧
    0 ≤ (DimScore.mk 50 confFloor []).score ∧
    (DimScore.mk 50 confFloor []).score ≤ 100 := by
  have hz : relevantSpans "relevance" (extract "".data QuestionType.technical) = [] := rfl
  have hm : mkDimScore "relevance" "".data.length
      (extract "".data QuestionType.technical) = DimScore.mk 50 confFloor [] :=
    mkDimScore_zero_evidence _ _ _ hz
  have hmem : ("relevance", DimScore.mk 50 confFloor []) ∈
      (mkAnalysis QuestionType.technical "").dimensions := by
    show ("relevance", DimScore.mk 50 confFloor []) ∈
      (dims QuestionType.technical).map
        (fun d => (d, mkDimScore d "".data.length (extract "".data QuestionType.technical)))
    refine List.mem_map.mpr ⟨"relevance", ?_, ?_⟩
    · simp [dims]
    · rw [hm]
  exact weights_and_composite_spec.2.2 QuestionType.technical ""
    ("relevance", DimScore.mk 50 confFloor []) hmem

/-- Claim C6: every dimension declared for a question type receives an
entry in the score mapping, and with zero evidence for the dimension the
entry carries the neutral default score 50 and the fixed zero-evidence
confidence floor; no declared dimension is ever omitted. -/
theorem scorer_total_spec (qt : QuestionType) (len : Nat)
    (spans : List EvidenceSpan) (d : String) (hd : d ∈ dims qt) :
    ((scoreAll qt len spans).lookup d).isSome = true ∧
    (relevantSpans d spans = [] →
      (scoreAll qt len spans).lookup d = some ⟨50, confFloor, []⟩) := by
  have hl : (scoreAll qt len spans).lookup d = some (mkDimScore d len spans) :=
    lookup_map_self _ _ _ hd
  constructor
  · rw [hl]; rfl
  · intro hz
    rw [hl, mkDimScore_zero_evidence d len spans hz]

/-- Witness for Claim C6 at a concrete input: dimension relevance of a
technical question with no evidence. -/
theorem scorer_total_spec_witness :
    ((scoreAll QuestionType.technical 0 []).lookup "relevance").isSome = true ∧
    (relevantSpans "relevance" [] = [] →
      (scoreAll QuestionType.technical 0 []).lookup "relevance" =
        some ⟨50, confFloor, []⟩) :=
  scorer_total_spec QuestionType.technical 0 [] "relevance" (by simp [dims])

/-- Modelled from the spec: the QuestionEvent state machine CREATED →
ASKED → ANSWERED (spec section 4.4). -/
inductive QState where
  | created
  | asked
  | answered
deriving DecidableEq

/-- Modelled from the spec: the error kinds of section 7. -/
inductive EngineError where
  | NotFound
  | StateConflict
  | SessionClosed
  | EmptySession
  | InvalidQuestionType
deriving DecidableEq

/-- Modelled from the spec: a QuestionEvent — sequence index, question
text, question type, lifecycle state and the attached ResponseAnalysis
versions, newest first (spec section 3; re-analysis appends a version). -/
structure QuestionEvent where
  idx : Nat
  questionText : String
  qtype : QuestionType
  state : QState
  versions : List ResponseAnalysis
deriving DecidableEq

/-- Modelled from the spec: the Response Analyzer
`analyze(questionEvent, responseText) → ResponseAnalysis` (spec
section 4.3): the event must be in the asked, not yet answered state,
else the call fails with StateConflict; on success the event becomes
ANSWERED with the ResponseAnalysis linked. -/
def analyze (qe : QuestionEvent) (response : String) :
    Except EngineError (QuestionEvent × ResponseAnalysis) :=
  match qe.state with
  | .asked =>
      .ok (⟨qe.idx, qe.questionText, qe.qtype, .answered,
            [mkAnalysis qe.qtype response]⟩,
           mkAnalysis qe.qtype response)
  | _ => .error .StateConflict

/-- Modelled from the spec: the explicit re-analyze operation, which
records a new ResponseAnalysis version in front of the prior ones (spec
sections 4.3 and 9). -/
def reanalyze (qe : QuestionEvent) (response : String) :
    Except EngineError (QuestionEvent × ResponseAnalysis) :=
  match qe.state with
  | .answered =>
      .ok (⟨qe.idx, qe.questionText, qe.qtype, .answered,
            mkAnalysis qe.qtype response :: qe.versions⟩,
           mkAnalysis qe.qtype response)
  | _ => .error .StateConflict

/-- Claim C1: analyzing a QuestionEvent in the ASKED state succeeds and
transitions it to ANSWERED with exactly one ResponseAnalysis attached;
analyzing the resulting event again without an explicit re-analyze fails
with StateConflict and attaches no second ResponseAnalysis. -/
theorem analyze_state_transition (qe : QuestionEvent) (r1 r2 : String)
    (h : qe.state = QState.asked) :
    ∃ qe' a, analyze qe r1 = Except.ok (qe', a) ∧
      qe'.state = QState.answered ∧ qe'.versions = [a] ∧
      analyze qe' r2 = Except.error EngineError.StateConflict := by
  refine ⟨⟨qe.idx, qe.questionText, qe.qtype, .answered,
    [mkAnalysis qe.qtype r1]⟩, mkAnalysis qe.qtype r1, ?_, rfl, rfl, rfl⟩
  unfold analyze
  rw [h]

/-- Witness for Claim C1 at a concrete QuestionEvent in the ASKED state. -/
theorem analyze_state_transition_witness :
    ∃ qe' a,
      analyze ⟨0, "Describe a project", QuestionType.technical,
        QState.asked, []⟩ "I built an algorithm" = Except.ok (qe', a) ∧
      qe'.state = QState.answered ∧ qe'.versions = [a] ∧
      analyze qe' "again" = Except.error EngineError.StateConflict :=
  analyze_state_transition _ _ _ rfl

/-- Modelled from the spec: session lifecycle status (spec section 3);
ENDED is terminal. -/
inductive SessionStatus where
  | active
  | ended
deriving DecidableEq

/-- Modelled from the spec: an InterviewSession — identifier, ordered
QuestionEvents and status (spec section 3). -/
structure InterviewSession where
  sid : String
  events : List QuestionEvent
  status : SessionStatus
deriving DecidableEq

/-- The latest ResponseAnalysis of every answered question, in question
order. -/
def answeredAnalyses (s : InterviewSession) : List ResponseAnalysis :=
  s.events.filterMap (fun e => e.versions.head?)

/-- Modelled from the spec: SessionSummary — aggregate dimension
statistics, trends, strengths/weaknesses and overall composite (spec
section 3). -/
structure SessionSummary where
  dimensionMeans : List (String × ℚ)
  trends : List (String × String)
  strengths : List String
  weaknesses : List String
  overallComposite : ℚ
deriving DecidableEq

/-- The dimensions that can appear in any score mapping. -/
def allDimensions : List String :=
  ["relevance", "clarity", "depth", "structure", "self-reflection"]

/-- Arithmetic mean of a list of rationals (0 on the empty list). -/
def meanQ (l : List ℚ) : ℚ := l.sum / (l.length : ℚ)

/-- Scores of one dimension across the analyses that declare it (spec
section 4.4: a per-dimension mean only ranges over questions whose type
declares that dimension). -/
def scoresFor (d : String) (as : List ResponseAnalysis) : List ℚ :=
  as.filterMap (fun a => (a.dimensions.lookup d).map (fun s => s.score))

/-- Modelled from the spec: the trend of one dimension — first-half mean
against second-half mean, with fewer than 4 answered questions reported
as insufficient-data (spec section 4.4). -/
def trendFor (n : Nat) (scores : List ℚ) : String :=
  if n < 4 then "insufficient-data"
  else if meanQ (scores.take (scores.length / 2)) <
      meanQ (scores.drop (scores.length / 2)) then "improving"
  else if meanQ (scores.drop (scores.length / 2)) <
      meanQ (scores.take (scores.length / 2)) then "declining"
  else "stable"

/-- Modelled from the spec: the SessionSummary computed from a non-empty
list of analyses — per-dimension means, trends, strengths (mean ≥ 75),
weaknesses (mean ≤ 40) and overall composite (spec section 4.4). -/
def mkSummary (as : List ResponseAnalysis) : SessionSummary :=
  ⟨allDimensions.map (fun d => (d, meanQ (scoresFor d as))),
   allDimensions.map (fun d => (d, trendFor as.length (scoresFor d as))),
   allDimensions.filter
     (fun d => !(scoresFor d as).isEmpty && decide (75 ≤ meanQ (scoresFor d as))),
   allDimensions.filter
     (fun d => !(scoresFor d as).isEmpty && decide (meanQ (scoresFor d as) ≤ 40)),
   meanQ (as.map (fun a => a.overall))⟩

/-- Modelled from the spec: the Session Aggregator
`summarize(session) → SessionSummary`, failing with EmptySession when the
session has zero ResponseAnalyses (spec section 4.4). -/
def summarize (s : InterviewSession) : Except EngineError SessionSummary :=
  match answeredAnalyses s with
  | [] => .error .EmptySession
  | a :: rest => .ok (mkSummary (a :: rest))

theorem trendFor_insufficient (scores : List ℚ) :
    trendFor 3 scores = "insufficient-data" := by
  unfold trendFor
  rw [if_pos (by norm_num)]

theorem trendFor_cases (n : Nat) (hn : 4 ≤ n) (scores : List ℚ) :
    trendFor n scores = "improving" ∨ trendFor n scores = "declining" ∨
      trendFor n scores = "stable" := by
  unfold trendFor
  rw [if_neg (by omega)]
  split
  · exact Or.inl rfl
  · split
    · exact Or.inr (Or.inl rfl)
    · exact Or.inr (Or.inr rfl)

/-- Claim C2: summarize fails with EmptySession on a session with zero
ResponseAnalyses; with exactly 3 answered questions every reported trend
is insufficient-data; with 4 or more answered questions every reported
trend is improving, declining or stable. -/
theorem summarize_spec :
    (∀ s : InterviewSession, answeredAnalyses s = [] →
      summarize s = Except.error EngineError.EmptySession) ∧
    (∀ s : InterviewSession, (answeredAnalyses s).length = 3 →
      ∃ sm, summarize s = Except.ok sm ∧
        ∀ p ∈ sm.trends, p.2 = "insufficient-data") ∧
    (∀ s : InterviewSession, 4 ≤ (answeredAnalyses s).length →
      ∃ sm, summarize s = Except.ok sm ∧
        ∀ p ∈ sm.trends,
          p.2 = "improving" ∨ p.2 = "declining" ∨ p.2 = "stable") := by
  refine ⟨?_, ?_, ?_⟩
  · intro s h
    unfold summarize
    rw [h]
  · intro s h3
    obtain ⟨a, rest, hA⟩ : ∃ a rest, answeredAnalyses s = a :: rest := by
      cases hA : answeredAnalyses s with
      | nil => rw [hA] at h3; cases h3
      | cons a rest => exact ⟨a, rest, rfl⟩
    refine ⟨mkSummary (a :: rest), by unfold summarize; rw [hA], ?_⟩
    intro p hp
    rcases List.mem_map.mp hp with ⟨d, _, rfl⟩
    show trendFor (a :: rest).length (scoresFor d (a :: rest)) = _
    have hl : (a :: rest).length = 3 := by rw [← hA]; exact h3
    rw [hl]
    exact trendFor_insufficient _
  · intro s h4
    obtain ⟨a, rest, hA⟩ : ∃ a rest, answeredAnalyses s = a :: rest := by
      cases hA : answeredAnalyses s with
      | nil => rw [hA] at h4; cases h4
      | cons a rest => exact ⟨a, rest, rfl⟩
    refine ⟨mkSummary (a :: rest), by unfold summarize; rw [hA], ?_⟩
    intro p hp
    rcases List.mem_map.mp hp with ⟨d, _, rfl⟩
    have hl : 4 ≤ (a :: rest).length := by rw [← hA]; exact h4
    exact trendFor_cases _ hl _

/-- A concrete analysis used by witnesses. -/
def demoAnalysis : ResponseAnalysis :=
  ⟨"demo response", [("relevance", ⟨60, 1, []⟩)], 60, "demo"⟩

/-- A concrete answered QuestionEvent used by witnesses. -/
def demoEvent (i : Nat) : QuestionEvent :=
  ⟨i, "demo question", QuestionType.technical, QState.answered, [demoAnalysis]⟩

/-- A concrete session with `k` answered questions, used by witnesses. -/
def demoSession (k : Nat) : InterviewSession :=
  ⟨"s-demo", (List.range k).map demoEvent, SessionStatus.active⟩

/-- Witness for Claim C2 at concrete sessions with 0, 3 and 4 answered
questions. -/
theorem summarize_spec_witness :
    summarize (demoSession 0) = Except.error EngineError.EmptySession ∧
    (∃ sm, summarize (demoSession 3) = Except.ok sm ∧
      ∀ p ∈ sm.trends, p.2 = "insufficient-data") ∧
    (∃ sm, summarize (demoSession 4) = Except.ok sm ∧
      ∀ p ∈ sm.trends,
        p.2 = "improving" ∨ p.2 = "declining" ∨ p.2 = "stable") :=
  ⟨summarize_spec.1 _ rfl, summarize_spec.2.1 _ rfl,
   summarize_spec.2.2 _ (by decide)⟩

/-- The external record format of the transport boundary (spec section 6):
a JSON-like value with strings, naturals, rationals, booleans and
arrays. -/
inductive RecVal where
  | rstr : String → RecVal
  | rnat : Nat → RecVal
  | rrat : ℚ → RecVal
  | rbool : Bool → RecVal
  | rarr : List RecVal → RecVal

/-- Modelled from the spec: an evidence span serialized as an offset pair
plus tag and rationale (spec section 6). -/
def encodeSpan (s : EvidenceSpan) : RecVal :=
  .rarr [.rnat s.start, .rnat s.stop, .rstr s.tag, .rstr s.rationale]

/-- Decoder for a serialized evidence span. -/
def decodeSpan : RecVal → Option EvidenceSpan
  | .rarr [.rnat a, .rnat b, .rstr t, .rstr r] => some ⟨a, b, t, r⟩
  | _ => none

/-- Decoder for a list of serialized evidence spans. -/
def decodeSpans : List RecVal → Option (List EvidenceSpan)
  | [] => some []
  | v :: vs =>
    match decodeSpan v, decodeSpans vs with
    | some s, some ss => some (s :: ss)
    | _, _ => none

/-- Modelled from the spec: one dimension entry serialized with its name,
score, confidence and evidence spans (spec section 6). -/
def encodeDim (p : String × DimScore) : RecVal :=
  .rarr [.rstr p.1, .rrat p.2.score, .rrat p.2.confidence,
         .rarr (p.2.evidence.map encodeSpan)]

/-- Decoder for a serialized dimension entry. -/
def decodeDim : RecVal → Option (String × DimScore)
  | .rarr [.rstr d, .rrat sc, .rrat cf, .rarr evs] =>
    match decodeSpans evs with
    | some ev => some (d, ⟨sc, cf, ev⟩)
    | none => none
  | _ => none

/-- Decoder for a list of serialized dimension entries. -/
def decodeDims : List RecVal → Option (List (String × DimScore))
  | [] => some []
  | v :: vs =>
    match decodeDim v, decodeDims vs with
    | some d, some ds => some (d :: ds)
    | _, _ => none

/-- Modelled from the spec: a ResponseAnalysis serialized as a record with
dimension scores, confidences, evidence spans, overall score and
justification text (spec section 6). -/
def encodeAnalysis (a : ResponseAnalysis) : RecVal :=
  .rarr [.rstr a.responseText, .rarr (a.dimensions.map encodeDim),
         .rrat a.overall, .rstr a.justification]

/-- Decoder for a serialized ResponseAnalysis. -/
def decodeAnalysis : RecVal → Option ResponseAnalysis
  | .rarr [.rstr t, .rarr ds, .rrat ov, .rstr j] =>
    match decodeDims ds with
    | some dd => some ⟨t, dd, ov, j⟩
    | none => none
  | _ => none

theorem decodeSpan_encodeSpan (s : EvidenceSpan) :
    decodeSpan (encodeSpan s) = some s := rfl

theorem decodeSpans_encodeSpans (l : List EvidenceSpan) :
    decodeSpans (l.map encodeSpan) = some l := by
  induction l with
  | nil => rfl
  | cons a t ih =>
    rw [List.map_cons]
    unfold decodeSpans
    rw [decodeSpan_encodeSpan, ih]

theorem decodeDim_encodeDim (p : String × DimScore) :
    decodeDim (encodeDim p) = some p := by
  simp only [encodeDim, decodeDim, decodeSpans_encodeSpans]

theorem decodeDims_encodeDims (l : List (String × DimScore)) :
    decodeDims (l.map encodeDim) = some l := by
  induction l with
  | nil => rfl
  | cons a t ih =>
    rw [List.map_cons]
    unfold decodeDims
    rw [decodeDim_encodeDim, ih]

/-- Claim C7: serializing a ResponseAnalysis to the external record
format and deserializing it back yields exactly the same analysis — all
dimension scores, confidences and evidence spans are preserved. -/
theorem analysis_round_trip (a : ResponseAnalysis) :
    decodeAnalysis (encodeAnalysis a) = some a := by
  simp only [encodeAnalysis, decodeAnalysis, decodeDims_encodeDims]

/-- An HTTP request as seen by the Express app in src/server.js: method,
path and raw body. -/
structure HttpRequest where
  method : String
  path : String
  body : String
deriving DecidableEq

/-- An HTTP response: status code plus the JSON object body as a list of
field/value pairs. -/
structure HttpResponse where
  status : Nat
  fields : List (String × RecVal)

/-- The health check handler of src/server.js lines 52-59: a fixed JSON
object plus the current timestamp; the request is ignored. -/
def healthHandler (_req : HttpRequest) (now : String) : HttpResponse :=
  ⟨200,
   [("status", .rstr "healthy"),
    ("service", .rstr "Interview Intelligence Platform"),
    ("version", .rstr "1.0.0"),
    ("timestamp", .rstr now)]⟩

/-- The API documentation handler of src/server.js lines 62-83 (scalar
fields of the served object). -/
def apiHandler (_req : HttpRequest) : HttpResponse :=
  ⟨200,
   [("name", .rstr "Interview Intelligence Platform API"),
    ("version", .rstr "1.0.0"),
    ("description", .rstr "AI-powered interview analysis and scoring system")]⟩

/-- The 404 handler of src/server.js lines 93-100: any request that fell
through every earlier layer gets status 404, success false and the
requested path echoed back. -/
def notFoundHandler (req : HttpRequest) : HttpResponse :=
  ⟨404,
   [("success", .rbool false),
    ("error", .rstr "Endpoint not found"),
    ("path", .rstr req.path),
    ("hint", .rstr "GET /api for available endpoints")]⟩

/-- The global error handler of src/server.js lines 103-110: status 500,
success false, and the underlying error message only when NODE_ENV is
development. -/
def errorHandler (nodeEnv : String) (errMsg : String) : HttpResponse :=
  ⟨500,
   [("success", .rbool false),
    ("error", .rstr "Internal server error"),
    ("message", .rstr (if nodeEnv = "development" then errMsg
                       else "An unexpected error occurred"))]⟩

/-- The middleware and route pipeline of src/server.js in source order:
the static file layer, then GET /health, then GET /api, then the mounted
interview router (abstracted as `iv`, returning none when no interview
route matches), then the 404 handler.  `sf` abstracts the contents of the
public directory. -/
def dispatchApp (sf : String → Option String)
    (iv : HttpRequest → Option HttpResponse) (now : String)
    (req : HttpRequest) : HttpResponse :=
  if req.method = "GET" ∧ (sf req.path).isSome = true then
    ⟨200, [("file", .rstr ((sf req.path).getD ""))]⟩
  else if req.method = "GET" ∧ req.path = "/health" then
    healthHandler req now
  else if req.method = "GET" ∧ req.path = "/api" then
    apiHandler req
  else
    match iv req with
    | some resp => resp
    | none => notFoundHandler req

/-- Claim C8: every GET request to /health is answered with a JSON object
whose status field is healthy, service field is Interview Intelligence
Platform and version field is 1.0.0, independent of any request
content. -/
theorem health_endpoint_spec (sf : String → Option String)
    (iv : HttpRequest → Option HttpResponse) (now : String)
    (req req' : HttpRequest)
    (hm : req.method = "GET") (hp : req.path = "/health")
    (hs : sf "/health" = none) :
    dispatchApp sf iv now req = healthHandler req now ∧
    (healthHandler req now).fields.lookup "status" = some (.rstr "healthy") ∧
    (healthHandler req now).fields.lookup "service" =
      some (.rstr "Interview Intelligence Platform") ∧
    (healthHandler req now).fields.lookup "version" = some (.rstr "1.0.0") ∧
    healthHandler req now = healthHandler req' now := by
  refine ⟨?_, rfl, rfl, rfl, rfl⟩
  unfold dispatchApp
  rw [if_neg, if_pos ⟨hm, hp⟩]
  intro hcon
  rw [hp, hs] at hcon
  exact Bool.false_ne_true hcon.2

/-- Witness for Claim C8 at a concrete request. -/
theorem health_endpoint_spec_witness :
    dispatchApp (fun _ => none) (fun _ => none) "2026-01-01T00:00:00Z"
        ⟨"GET", "/health", ""⟩ =
      healthHandler ⟨"GET", "/health", ""⟩ "2026-01-01T00:00:00Z" ∧
    (healthHandler ⟨"GET", "/health", ""⟩ "2026-01-01T00:00:00Z").fields.lookup
        "status" = some (.rstr "healthy") ∧
    (healthHandler ⟨"GET", "/health", ""⟩ "2026-01-01T00:00:00Z").fields.lookup
        "service" = some (.rstr "Interview Intelligence Platform") ∧
    (healthHandler ⟨"GET", "/health", ""⟩ "2026-01-01T00:00:00Z").fields.lookup
        "version" = some (.rstr "1.0.0") ∧
    healthHandler ⟨"GET", "/health", ""⟩ "2026-01-01T00:00:00Z" =
      healthHandler ⟨"POST", "/other", "payload"⟩ "2026-01-01T00:00:00Z" :=
  health_endpoint_spec _ _ _ _ _ rfl rfl rfl

/-- Claim C9: every request matching no registered route — not served by
the static layer, not GET /health, not GET /api and not handled by the
interview router — receives status 404 with success false and the
requested path echoed in the path field. -/
theorem not_found_spec (sf : String → Option String)
    (iv : HttpRequest → Option HttpResponse) (now : String)
    (req : HttpRequest)
    (hs : sf req.path = none)
    (hh : ¬(req.method = "GET" ∧ req.path = "/health"))
    (ha : ¬(req.method = "GET" ∧ req.path = "/api"))
    (hi : iv req = none) :
    dispatchApp sf iv now req = notFoundHandler req ∧
    (notFoundHandler req).status = 404 ∧
    (notFoundHandler req).fields.lookup "success" = some (.rbool false) ∧
    (notFoundHandler req).fields.lookup "path" = some (.rstr req.path) := by
  refine ⟨?_, rfl, rfl, ?_⟩
  · unfold dispatchApp
    rw [if_neg, if_neg hh, if_neg ha, hi]
    intro hcon
    rw [hs] at hcon
    exact Bool.false_ne_true hcon.2
  · rfl

/-- Witness for Claim C9 at a concrete unmatched request. -/
theorem not_found_spec_witness :
    dispatchApp (fun _ => none) (fun _ => none) "now"
        ⟨"GET", "/missing", ""⟩ =
      notFoundHandler ⟨"GET", "/missing", ""⟩ ∧
    (notFoundHandler ⟨"GET", "/missing", ""⟩).status = 404 ∧
    (notFoundHandler ⟨"GET", "/missing", ""⟩).fields.lookup "success" =
      some (.rbool false) ∧
    (notFoundHandler ⟨"GET", "/missing", ""⟩).fields.lookup "path" =
      some (.rstr (HttpRequest.mk "GET" "/missing" "").path) :=
  not_found_spec _ _ _ _ rfl (by simp) (by simp) rfl

/-- Claim C10: the global error handler answers status 500 with success
false; the underlying error message reaches the client only when NODE_ENV
is development, and in any other environment the message field is the
fixed string. -/
theorem error_handler_spec (nodeEnv errMsg : String) :
    (errorHandler nodeEnv errMsg).status = 500 ∧
    (errorHandler nodeEnv errMsg).fields.lookup "success" =
      some (.rbool false) ∧
    (nodeEnv = "development" →
      (errorHandler nodeEnv errMsg).fields.lookup "message" =
        some (.rstr errMsg)) ∧
    (nodeEnv ≠ "development" →
      (errorHandler nodeEnv errMsg).fields.lookup "message" =
        some (.rstr "An unexpected error occurred")) := by
  refine ⟨rfl, rfl, ?_, ?_⟩
  · intro h
    unfold errorHandler
    rw [if_pos h]
    rfl
  · intro h
    unfold errorHandler
    rw [if_neg h]
    rfl

/-- Witness for Claim C10 in development and production environments. -/
theorem error_handler_spec_witness :
    (errorHandler "development" "boom").fields.lookup "message" =
      some (.rstr "boom") ∧
    (errorHandler "production" "boom").fields.lookup "message" =
      some (.rstr "An unexpected error occurred") :=
  ⟨(error_handler_spec "development" "boom").2.2.1 rfl,
   (error_handler_spec "production" "boom").2.2.2 (by simp)⟩
